import Mathlib

/-!
Verification of the OneVision multi-account AWS inventory collector
(`lambdafunction/`): a shallow embedding of the batched DynamoDB
persistence protocol (`collectors/base.py`), the delete-batch protocol and
table-clearing scan of `cleaner.py`, the collector buffer/envelope logic
(`ResourceCollector`), the metrics accumulator and its persistence
(`collectors/metrics_calculator.py`), and the account/region orchestration
loops of `index.py`.

Python dictionaries are modelled as association lists with unique keys
(`Dict`), Python values as the inductive `DVal` (DynamoDB-representable
values: None, str, bool, int, Decimal, list, dict; raw floats are
normalised by the callers before they reach the persistence layer and are
not part of the modelled value domain).  Wall-clock sleeps and log calls
have no observable effect on any return value and are omitted.  Thread
pools are modelled by evaluating each submitted work item; every property
proved here is about the per-item results and their order-insensitive
combination (sums, counts), matching the source's use of `as_completed`.
-/

/-- Value domain for items stored in DynamoDB batches: Python `None`,
`str`, `bool`, `int`, `Decimal` (exact rationals), `list` and `dict`
(association list in insertion order). -/
inductive DVal where
  | nullV : DVal
  | strV : String → DVal
  | boolV : Bool → DVal
  | intV : Int → DVal
  | decV : ℚ → DVal
  | listV : List DVal → DVal
  | mapV : List (String × DVal) → DVal

/-- A Python dict, modelled as an association list in insertion order with
unique keys. -/
abbrev Dict := List (String × DVal)

/-- Lookup of a key in a dict (`d.get(k)` / `d[k]`). -/
def dlookup (d : Dict) (k : String) : Option DVal :=
  match d with
  | [] => none
  | (k₁, v₁) :: rest => if k₁ = k then some v₁ else dlookup rest k

/-- Lookup with a default (`d.get(k, default)`). -/
def dget (d : Dict) (k : String) (default : DVal) : DVal :=
  (dlookup d k).getD default

/-- Keyed assignment `d[k] = v`: replaces the value in place if the key is
present (Python dicts keep insertion order on overwrite), appends
otherwise. -/
def dinsert (d : Dict) (k : String) (v : DVal) : Dict :=
  match d with
  | [] => [(k, v)]
  | (k₁, v₁) :: rest => if k₁ = k then (k, v) :: rest else (k₁, v₁) :: dinsert rest k v

/-- `d.update(u)`: assign every binding of `u` into `d`, in order. -/
def dictUpdate (d : Dict) (u : Dict) : Dict :=
  u.foldl (fun acc kv => dinsert acc kv.1 kv.2) d

/-- Python `str()` as used in f-string interpolation of envelope fields.
Container and Decimal renderings are approximations; in every call site in
the repository the interpolated value is a string. -/
def pyStr : DVal → String
  | .nullV => "None"
  | .strV s => s
  | .boolV true => "True"
  | .boolV false => "False"
  | .intV n => toString n
  | .decV q => toString q
  | .listV _ => "[...]"
  | .mapV _ => "{...}"

mutual
/-- Embedding of `_to_dynamodb_compatible` (collectors/base.py): `None`
maps to `None` (field dropped by the container cases), scalars are kept,
lists and dicts are cleaned recursively with `None`-cleaned entries
dropped.  The float branch (NaN/Infinity dropping, 3-decimal rounding)
concerns a value kind outside the modelled domain. -/
def sanitizeVal : DVal → Option DVal
  | .nullV => none
  | .strV s => some (.strV s)
  | .boolV b => some (.boolV b)
  | .intV n => some (.intV n)
  | .decV q => some (.decV q)
  | .listV l => some (.listV (sanitizeList l))
  | .mapV m => some (.mapV (sanitizePairs m))
/-- List case of `_to_dynamodb_compatible`: entries cleaning to `None` are
dropped. -/
def sanitizeList : List DVal → List DVal
  | [] => []
  | v :: r =>
    match sanitizeVal v with
    | none => sanitizeList r
    | some cv => cv :: sanitizeList r
/-- Dict case of `_to_dynamodb_compatible`: keys whose value cleans to
`None` are dropped. -/
def sanitizePairs : List (String × DVal) → List (String × DVal)
  | [] => []
  | (k, v) :: r =>
    match sanitizeVal v with
    | none => sanitizePairs r
    | some cv => (k, cv) :: sanitizePairs r
end

/-- Top-level `_to_dynamodb_compatible` applied to an item (a dict). -/
def sanitizeDict (d : Dict) : Dict := sanitizePairs d

theorem dlookup_dinsert_self (d : Dict) (k : String) (v : DVal) :
    dlookup (dinsert d k v) k = some v := by
  induction d with
  | nil => simp [dinsert, dlookup]
  | cons kv rest ih =>
    obtain ⟨k₁, v₁⟩ := kv
    by_cases h : k₁ = k
    · simp [dinsert, dlookup, h]
    · simp [dinsert, dlookup, h, ih]

theorem dlookup_dinsert_ne (d : Dict) (k q : String) (v : DVal) (h : k ≠ q) :
    dlookup (dinsert d k v) q = dlookup d q := by
  induction d with
  | nil => simp [dinsert, dlookup, h]
  | cons kv rest ih =>
    obtain ⟨k₁, v₁⟩ := kv
    by_cases h₁ : k₁ = k
    · subst h₁; simp [dinsert, dlookup, h]
    · simp [dinsert, dlookup, h₁, ih]

theorem dlookup_dictUpdate_of_notMem (d : Dict) (u : Dict) (q : String)
    (h : dlookup u q = none) : dlookup (dictUpdate d u) q = dlookup d q := by
  induction u generalizing d with
  | nil => simp [dictUpdate]
  | cons kv rest ih =>
    obtain ⟨k₁, v₁⟩ := kv
    have hne : k₁ ≠ q := by
      intro he
      simp [dlookup, he] at h
    have hrest : dlookup rest q = none := by simpa [dlookup, hne] using h
    calc dlookup (dictUpdate d ((k₁, v₁) :: rest)) q
        = dlookup (dictUpdate (dinsert d k₁ v₁) rest) q := rfl
      _ = dlookup (dinsert d k₁ v₁) q := ih (dinsert d k₁ v₁) hrest
      _ = dlookup d q := dlookup_dinsert_ne d k₁ q v₁ hne

/-- One response of the key-value store to a `batch_write_item` call:
either a (possibly empty) list of unprocessed requests, or one of the
error classes distinguished by the source's exception handlers. -/
inductive StoreResp where
  | ok (unprocessed : List Dict) : StoreResp
  | retryableClientError : StoreResp
  | nonRetryableClientError : StoreResp
  | otherError : StoreResp

/-- Behaviour of one table's `batch_write_item` endpoint: the response to
the `n`-th call this run, given the submitted requests. -/
abbrev Store := Nat → List Dict → StoreResp

/-- The store behaviour of claim C1: every submitted item is reported
unprocessed on every call. -/
def alwaysUnprocessedStore : Store := fun _ req => StoreResp.ok req

/-- MAX_BATCH_SIZE (collectors/base.py and cleaner.py): DynamoDB's hard
per-call item limit. -/
def MAX_BATCH_SIZE : Nat := 25

/-- Fuel-indexed chunking worker; the fuel is an upper bound on the list
length, so `chunksOf` below is total and computes by `rfl`. -/
def chunksOfAux (n : Nat) : Nat → List Dict → List (List Dict)
  | 0, _ => []
  | _, [] => []
  | Nat.succ fuel, x :: xs => (x :: xs).take n :: chunksOfAux n fuel ((x :: xs).drop n)

/-- Partition of a list into successive chunks of at most `n` elements,
mirroring `for start_idx in range(0, len(items), MAX_BATCH_SIZE)` with
slicing. -/
def chunksOf (n : Nat) (l : List Dict) : List (List Dict) :=
  chunksOfAux n l.length l

/-- Embedding of the per-chunk retry loop of `batch_write_to_dynamodb`
(collectors/base.py lines 204-253): up to `max_retries = 5` calls;
unprocessed subsets are resubmitted; retryable client errors and
unexpected errors consume a retry with the request unchanged;
a non-retryable client error abandons the chunk (`retries = max_retries;
break`).  Returns the items counted as written for this chunk and the
number of `batch_write_item` calls issued.  The fuel argument is
`max_retries - retries`. -/
def writeChunkLoop (store : Store) (callIdx : Nat) :
    Nat → List Dict → Nat → Nat × Nat
  | 0, _, written => (written, 0)
  | Nat.succ fuel, request, written =>
    match store callIdx request with
    | .ok unprocessed =>
      let written' := written + (request.length - unprocessed.length)
      if unprocessed.isEmpty then (written', 1)
      else
        let r := writeChunkLoop store (callIdx + 1) fuel unprocessed written'
        (r.1, r.2 + 1)
    | .retryableClientError =>
      let r := writeChunkLoop store (callIdx + 1) fuel request written
      (r.1, r.2 + 1)
    | .nonRetryableClientError => (written, 1)
    | .otherError =>
      let r := writeChunkLoop store (callIdx + 1) fuel request written
      (r.1, r.2 + 1)

/-- Truthy items of one 25-item slice (`valid_batch_items`,
collectors/base.py line 182): falsy (empty) dicts are filtered out. -/
def validItemsOf (chunk : List Dict) : List Dict :=
  chunk.filter (fun it => !it.isEmpty)

/-- Sanitised batch of one chunk (`sanitized_batch_items`,
collectors/base.py lines 191-195): `_to_dynamodb_compatible` applied to
every truthy item, empty results dropped. -/
def sanitizedItemsOf (chunk : List Dict) : List Dict :=
  ((validItemsOf chunk).map sanitizeDict).filter (fun s => !s.isEmpty)

/-- Processing of one 25-item slice inside the per-table loop of
`batch_write_to_dynamodb`: an empty valid or sanitised batch is skipped
without any store call (`continue`), otherwise the retry loop runs with
fresh `retries = 0`.  The accumulator is (written so far, chunks that
issued their initial call, store calls so far). -/
def writeChunkStep (store : Store) (acc : Nat × Nat × Nat) (chunk : List Dict) :
    Nat × Nat × Nat :=
  if (validItemsOf chunk).isEmpty then acc
  else if (sanitizedItemsOf chunk).isEmpty then acc
  else
    let r := writeChunkLoop store acc.2.2 5 (sanitizedItemsOf chunk) 0
    (acc.1 + r.1, acc.2.1 + 1, acc.2.2 + r.2)

/-- Per-table statistics of a `batch_write_to_dynamodb` run. -/
structure WriteStats where
  written : Nat
  initialCalls : Nat
  totalCalls : Nat

/-- One table's pass of the outer loop of `batch_write_to_dynamodb`:
the items are processed in `MAX_BATCH_SIZE` chunks. -/
def writeToTable (store : Store) (items : List Dict) : WriteStats :=
  let r := (chunksOf MAX_BATCH_SIZE items).foldl (writeChunkStep store) (0, 0, 0)
  ⟨r.1, r.2.1, r.2.2⟩

/-- Embedding of `batch_write_to_dynamodb` (collectors/base.py lines
158-266).  The guard mirrors `if not items or not table_objects: return 0`;
each table is written in turn (the source skips table objects without a
`name` attribute; tables here are well-formed by construction); the
reported `written` count is the one of the primary table (index 0), and
`initialCalls` sums, over all tables, the chunks whose first
`batch_write_item` call was issued. -/
def batch_write_to_dynamodb (tables : List Store) (items : List Dict) : WriteStats :=
  if items.isEmpty || tables.isEmpty then ⟨0, 0, 0⟩
  else
    let results := tables.map (fun t => writeToTable t items)
    { written := (results.headD ⟨0, 0, 0⟩).written
      initialCalls := (results.map WriteStats.initialCalls).sum
      totalCalls := (results.map WriteStats.totalCalls).sum }

/-- Result of `batch_delete_items` (cleaner.py): either the number of
successfully deleted requests, or one of the raising exits (re-raised
non-retryable `ClientError`, re-raised unexpected exception, or the
`RuntimeError` after exhausting `max_retries` with items still
unprocessed, carrying the count of failed requests). -/
inductive DeleteResult where
  | ok (deleted : Nat) : DeleteResult
  | nonRetryableClientError : DeleteResult
  | unexpectedError : DeleteResult
  | maxRetriesExhausted (failedCount : Nat) : DeleteResult

/-- Embedding of the retry loop of `batch_delete_items` (cleaner.py lines
89-137), `max_retries = 7`: per attempt the unprocessed subset is
resubmitted and partial deletions are accumulated; retryable client
errors consume a retry with the request unchanged; non-retryable client
errors and unexpected errors raise immediately; leaving the loop with a
non-empty request raises `RuntimeError`.  Also returns the number of
`batch_write_item` calls issued.  The fuel argument is
`max_retries - retries`. -/
def batchDeleteLoop (store : Store) (callIdx : Nat) :
    Nat → List Dict → Nat → DeleteResult × Nat
  | 0, request, deleted =>
    (if request.isEmpty then .ok deleted else .maxRetriesExhausted request.length, 0)
  | Nat.succ fuel, request, deleted =>
    match store callIdx request with
    | .ok unprocessed =>
      let deleted' := deleted + (request.length - unprocessed.length)
      if unprocessed.isEmpty then (.ok deleted', 1)
      else
        let r := batchDeleteLoop store (callIdx + 1) fuel unprocessed deleted'
        (r.1, r.2 + 1)
    | .retryableClientError =>
      let r := batchDeleteLoop store (callIdx + 1) fuel request deleted
      (r.1, r.2 + 1)
    | .nonRetryableClientError => (.nonRetryableClientError, 1)
    | .otherError => (.unexpectedError, 1)

/-- Embedding of `batch_delete_items` (cleaner.py lines 61-141): empty
request lists return 0 without any call, otherwise the retry loop runs
with `retries = 0`, `max_retries = 7`. -/
def batch_delete_items (store : Store) (delete_requests : List Dict) :
    DeleteResult × Nat :=
  if delete_requests.isEmpty then (.ok 0, 0)
  else batchDeleteLoop store 0 7 delete_requests 0

mutual
/-- Structural size of a `DVal` used as termination measure for the
`flatten_metric` embedding. -/
def dsize : DVal → Nat
  | .nullV => 1
  | .strV _ => 1
  | .boolV _ => 1
  | .intV _ => 1
  | .decV _ => 1
  | .listV l => 3 + lsize l
  | .mapV m => 3 + psize m
/-- Size of a list of values. -/
def lsize : List DVal → Nat
  | [] => 0
  | v :: r => 1 + dsize v + lsize r
/-- Size of a list of key/value pairs. -/
def psize : List (String × DVal) → Nat
  | [] => 0
  | (_, v) :: r => 1 + dsize v + psize r
end

mutual
/-- Embedding of the dict traversal of `flatten_metric`
(collectors/metrics_calculator.py lines 438-463): each key is prefixed
with `pre ++ "_"` unless the running prefix is empty, then dispatched on
the value's shape. -/
def flattenPairs (target : Dict) (pre : String) : List (String × DVal) → Dict
  | [] => target
  | (k, v) :: rest =>
    flattenPairs (flattenOne target (if pre = "" then k else pre ++ "_" ++ k) v) pre rest
termination_by ps => psize ps
decreasing_by all_goals (simp only [psize, lsize, dsize]; omega)
/-- Dispatch on one value inside `flatten_metric`: dicts recurse with the
new key as prefix, lists are expanded into numbered keys, scalars are
assigned directly. -/
def flattenOne (target : Dict) (newKey : String) : DVal → Dict
  | .mapV m => flattenPairs target newKey m
  | .listV l => flattenList target newKey 0 l
  | v => dinsert target newKey v
termination_by v => dsize v
decreasing_by all_goals (simp only [psize, lsize, dsize]; omega)
/-- List expansion inside `flatten_metric`: element `i` gets key
`newKey_i`; dict elements recurse under that key; a nested list is
re-wrapped as `{str(i): elem}` and flattened under `newKey` (the source's
nested-list branch); scalars are assigned at the indexed key. -/
def flattenList (target : Dict) (newKey : String) (i : Nat) : List DVal → Dict
  | [] => target
  | .mapV m :: rest =>
    flattenList (flattenPairs target (newKey ++ "_" ++ toString i) m) newKey (i + 1) rest
  | .listV l :: rest =>
    flattenList (flattenPairs target newKey [(toString i, .listV l)]) newKey (i + 1) rest
  | v :: rest =>
    flattenList (dinsert target (newKey ++ "_" ++ toString i) v) newKey (i + 1) rest
termination_by es => lsize es + 2
decreasing_by all_goals (simp only [psize, lsize, dsize]; omega)
end

/-- Embedding of `flatten_metric(target, data, prefix="")`
(collectors/metrics_calculator.py): flattens nested dicts/lists of `data`
into `target`. -/
def flatten_metric (target : Dict) (data : Dict) (pre : String := "") : Dict :=
  flattenPairs target pre data

/-- Python's `v is None` identity test. -/
def DVal.isNull : DVal → Bool
  | .nullV => true
  | _ => false

/-- Credential bundle returned by `sts.assume_role` (`Credentials` key of
the response), consumed opaquely by collectors. -/
structure Credentials where
  AccessKeyId : String
  SecretAccessKey : String
  SessionToken : String

/-- State of a `ResourceCollector` (collectors/base.py lines 302-344):
the bound account/region context, the configured tables and the buffered
items.  The table behaviours stand in for the DynamoDB table objects. -/
structure CollectorState where
  account_id : String
  account_name : String
  region : String
  tables : List Store
  items : List Dict

/-- Region stamped on an item by `add_item`: `properties.get('region',
self.region)` — note that Python's `get` returns a stored `None`
rather than the default when the key is present with value `None`. -/
def addItemRegion (c : CollectorState) (properties : Dict) : DVal :=
  match dlookup properties "region" with
  | some v => v
  | none => .strV c.region

/-- Embedding of `ResourceCollector.add_item` (collectors/base.py lines
328-344): stamps the envelope (account, derived id, names, region,
timestamps) and then applies `item.update({k: v for k, v in
properties.items() if v is not None})`, so non-null properties are laid
over the envelope and null-valued properties are dropped.  `now` is the
formatted current timestamp, passed explicitly. -/
def add_item (c : CollectorState) (resource_type resource_id : String)
    (properties : Dict) (now : String) : CollectorState :=
  let item_region := addItemRegion c properties
  let item : Dict :=
    [("accountId", .strV c.account_id),
     ("id", .strV (c.account_id ++ "-" ++ pyStr item_region ++ "-" ++
        resource_type ++ "-" ++ resource_id)),
     ("accountName", .strV c.account_name),
     ("resourceType", .strV resource_type),
     ("region", item_region),
     ("createdAt", .strV now),
     ("updatedAt", .strV now)]
  let item := dictUpdate item (properties.filter (fun kv => !kv.2.isNull))
  { c with items := c.items ++ [item] }

/-- Embedding of `ResourceCollector.save` (collectors/base.py lines
350-370): empty buffer or no configured tables return 0 immediately;
otherwise the buffer is cleared first, then handed to persistence, whose
exceptions are caught and reported as 0.  `persist` stands for the
`batch_write_to_dynamodb` call together with any exception it may raise
(the `except` branch exists in the source). -/
def ResourceCollector.save
    (persist : List Store → List Dict → Except String Nat)
    (c : CollectorState) : Nat × CollectorState :=
  if c.items.isEmpty then (0, c)
  else if c.tables.isEmpty then (0, c)
  else
    let items_to_save := c.items
    let c' := { c with items := [] }
    match persist c'.tables items_to_save with
    | .ok count => (count, c')
    | .error _ => (0, c')

/-- Outcome of one collector submitted to
`ResourceCollector.parallel_collect_and_save`: the behaviours of its
`collect()` and `save()` calls, either of which may raise.  Concrete
collectors enumerate external provider APIs and are external
collaborators, so their outcomes are the model's inputs. -/
structure CollectorRun where
  collectResult : Except String (List Dict)
  saveResult : Except String Nat

/-- Result dict built for one collector by the submitted lambda. -/
structure CollectorOutcome where
  collected_items : List Dict
  items_saved : Nat

/-- The lambda submitted per collector: `{"collected_items": c.collect()
or [], "items_saved": c.save() or 0}`; an exception from either call makes
the future raise. -/
def runCollector (c : CollectorRun) : Except String CollectorOutcome := do
  let items ← c.collectResult
  let saved ← c.saveResult
  pure ⟨items, saved⟩

/-- Embedding of `ResourceCollector.parallel_collect_and_save`
(collectors/base.py lines 371-404): every submitted collector yields one
result; a raising future is caught and replaced by the empty outcome
(`collected_items: [], items_saved: 0`).  `as_completed` yields results
in an unspecified order; the properties proved below are insensitive to
that order, so the submission order is used. -/
def parallel_collect_and_save (cs : List CollectorRun) : List CollectorOutcome :=
  cs.map (fun c =>
    match runCollector c with
    | .ok r => r
    | .error _ => ⟨[], 0⟩)

/-- Embedding of `process_region` (index.py lines 29-67): the regional
collectors are run through `parallel_collect_and_save` and the
`items_saved` counts summed.  Feeding the collected items to the metrics
accumulator touches neither the outcomes nor the returned count and is
elided here. -/
def process_region (cs : List CollectorRun) : Nat :=
  ((parallel_collect_and_save cs).map CollectorOutcome.items_saved).sum

/-- Contribution of one collector to its region's total. -/
def collectorContribution (c : CollectorRun) : Nat :=
  match runCollector c with
  | .ok r => r.items_saved
  | .error _ => 0

/-- Whether a collector's future raised. -/
def collectorFailed (c : CollectorRun) : Bool :=
  match runCollector c with
  | .ok _ => false
  | .error _ => true

/-- Failure modes of the `assume_role` call in `process_account`
(index.py lines 81-94): a `ClientError` (authorization failure) or any
unexpected exception. -/
inductive RoleFailure where
  | clientError (msg : String) : RoleFailure
  | unexpected (msg : String) : RoleFailure

/-- Embedding of `process_account` (index.py lines 70-184).  `assumeRole`
is the outcome of the `sts.assume_role` call; both failure branches
return 0 and skip the account.  `collectWithCredentials` bundles steps
2-5 (region discovery, storage collection, concurrent region processing)
which run only with valid credentials; an exception escaping them is
caught by the outer handler, which also returns 0. -/
def process_account (assumeRole : Except RoleFailure Credentials)
    (collectWithCredentials : Credentials → Except String Nat) : Nat :=
  match assumeRole with
  | .error _ => 0
  | .ok credentials =>
    match collectWithCredentials credentials with
    | .ok total => total
    | .error _ => 0

/-- Embedding of the result-draining loop of `lambda_handler` (index.py
lines 279-298): before consuming each completed account future, the
remaining-time check runs; under 15000 ms the loop breaks.  `remaining i`
is the reading of `context.get_remaining_time_in_millis()` at the `i`-th
check; `futures` are the account futures' outcomes.  Returns (accounts
processed, total resources, accounts with critical errors). -/
def consumeAccountFutures (remaining : Nat → Nat) :
    Nat → List (Except String Nat) → Nat × Nat × Nat
  | _, [] => (0, 0, 0)
  | i, f :: fs =>
    if remaining i < 15000 then (0, 0, 0)
    else
      match f with
      | .ok n =>
        let r := consumeAccountFutures remaining (i + 1) fs
        (r.1 + 1, r.2.1 + n, r.2.2)
      | .error _ =>
        let r := consumeAccountFutures remaining (i + 1) fs
        (r.1, r.2.1, r.2.2 + 1)

/-- The summary fields of `lambda_handler`'s return value that concern
account accounting (index.py lines 351-365). -/
structure RunSummary where
  accountsProcessedCount : Nat
  totalResourcesSaved : Nat
  accountsWithCriticalErrors : Nat
  totalAccountsInOrg : Nat

/-- Summary assembled by `lambda_handler` after the draining loop:
`totalAccountsInOrg = len(accounts)` counts all discovered accounts,
consumed or not. -/
def lambdaSummary (remaining : Nat → Nat)
    (futures : List (Except String Nat)) : RunSummary :=
  let r := consumeAccountFutures remaining 0 futures
  ⟨r.1, r.2.1, r.2.2, futures.length⟩

/-- Python's `round()` with no digits: round half to even, on exact
rationals. -/
def pyRound (q : ℚ) : ℤ :=
  let f := ⌊q⌋
  let r := q - (f : ℚ)
  if r < 1 / 2 then f
  else if 1 / 2 < r then f + 1
  else if f % 2 = 0 then f else f + 1

/-- Python's `round(q, ndigits)` on exact rationals. -/
def pyRoundTo (q : ℚ) (ndigits : Nat) : ℚ :=
  (pyRound (q * (10 ^ ndigits : ℚ)) : ℚ) / (10 ^ ndigits : ℚ)

/-- Embedding of `_safe_pct` (collectors/metrics_calculator.py lines
15-22): integer percentage guarded against a zero denominator (Python's
falsy test on an int is `== 0`); the `except` branch is unreachable for a
non-zero denominator. -/
def safe_pct (numer denom : Nat) : ℤ :=
  if denom = 0 then 0 else pyRound ((numer : ℚ) / (denom : ℚ) * 100)

/-- Counter state of `MetricsAccumulator` (collectors/metrics_calculator.py
`reset`, lines 71-122): purely additive counters and small maps, one field
per Python attribute. -/
structure MetricsState where
  resource_counts : List (String × Nat)
  account_counts : List (String × Nat)
  region_counts : List (String × Nat)
  account_names : List (String × String)
  regions_collected : List String
  ec2_states : List (String × Nat)
  ec2_health : List (String × Nat)
  ec2_cw_memory : Nat
  ec2_cw_disk : Nat
  ec2_cw_both : Nat
  ec2_ssm_connected : Nat
  ec2_ssm_notconnected : Nat
  ec2_ssm_notinstalled : Nat
  ec2_total : Nat
  ec2_running : Nat
  ec2_stopped : Nat
  rds_total : Nat
  rds_available : Nat
  rds_engines : List (String × Nat)
  rds_multiaz : Nat
  rds_performance_insights : Nat
  s3_total : Nat
  s3_with_lifecycle : Nat
  efs_total : Nat
  fsx_total : Nat
  backup_plans : Nat
  backup_vaults : Nat
  backup_recovery_points : Nat
  sg_total : Nat
  sg_with_exposed_ports : Nat
  vpc_total : Nat
  subnet_total : Nat
  ebs_unattached : Nat
  eip_unassociated : Nat
  snapshots_orphaned : Nat

/-- The state produced by `MetricsAccumulator.reset()`: every counter
zero, every map empty. -/
def resetState : MetricsState :=
  ⟨[], [], [], [], [], [], [], 0, 0, 0, 0, 0, 0, 0, 0, 0, 0, 0, [], 0, 0,
   0, 0, 0, 0, 0, 0, 0, 0, 0, 0, 0, 0, 0, 0⟩

/-- Assoc-list lookup for counter maps. -/
def alookup {α : Type} (l : List (String × α)) (k : String) : Option α :=
  (l.find? (fun p => p.1 == k)).map Prod.snd

/-- `counts.get(k, 0)`. -/
def lookupCount (l : List (String × Nat)) (k : String) : Nat :=
  (alookup l k).getD 0

/-- Stable descending insertion by count, modelling Python's stable
`sorted(..., key=lambda x. x[1], reverse=True)`. -/
def insertByCountDesc (x : String × Nat) :
    List (String × Nat) → List (String × Nat)
  | [] => [x]
  | y :: r => if y.2 < x.2 then x :: y :: r else y :: insertByCountDesc x r

/-- Stable sort by count, descending. -/
def sortByCountDesc (l : List (String × Nat)) : List (String × Nat) :=
  l.foldr insertByCountDesc []

/-- One entry of the account distribution in the global metrics. -/
structure AccountDistEntry where
  accountId : String
  accountName : String
  count : Nat

/-- The `cloudwatchAgent` sub-dict of the EC2 metrics section. -/
structure CloudwatchAgentMetrics where
  memoryMonitoring : Nat
  diskMonitoring : Nat
  bothEnabled : Nat
  noneEnabled : Nat
  percentageWithMemory : ℤ
  percentageWithDisk : ℤ

/-- The `ssmAgent` sub-dict of the EC2 metrics section. -/
structure SSMAgentMetrics where
  connected : Nat
  notConnected : Nat
  notInstalled : Nat
  percentageConnected : ℤ

/-- The `ec2` section of the rollup. -/
structure EC2Metrics where
  total : Nat
  byState : List (String × Nat)
  healthStatus : List (String × Nat)
  cloudwatchAgent : CloudwatchAgentMetrics
  ssmAgent : SSMAgentMetrics

/-- The `rds` section of the rollup. -/
structure RDSMetrics where
  total : Nat
  available : Nat
  engines : List (String × Nat)
  multiAZ : Nat
  performanceInsights : Nat
  percentageMultiAZ : ℤ
  percentageWithPerfInsights : ℤ

/-- The `storage` section of the rollup. -/
structure StorageMetrics where
  s3Buckets : Nat
  s3WithLifecycle : Nat
  ebsVolumes : Nat
  ebsSnapshots : Nat
  amiSnapshots : Nat
  efsFileSystems : Nat
  fsxFileSystems : Nat
  backupPlans : Nat
  backupVaults : Nat
  backupRecoveryPoints : Nat

/-- The `cost` section of the rollup. -/
structure CostMetrics where
  unattachedEBSVolumes : Nat
  unassociatedElasticIPs : Nat
  potentialMonthlySavings : ℚ

/-- The `security` section of the rollup. -/
structure SecurityMetrics where
  securityGroups : Nat
  exposedSecurityGroups : Nat
  percentageExposed : ℤ

/-- The `global` section of the rollup. -/
structure GlobalMetrics where
  totalResources : Nat
  resourceCounts : List (String × Nat)
  accountDistribution : List AccountDistEntry
  regionDistribution : List (String × Nat)
  regionsCollected : Nat
  resourceRegionsFound : Nat

/-- The full rollup returned by `MetricsAccumulator.get_metrics`; the
`ec2` and `rds` sections are `None` when their family saw zero records. -/
structure Metrics where
  globalSection : GlobalMetrics
  ec2 : Option EC2Metrics
  rds : Option RDSMetrics
  storage : StorageMetrics
  cost : CostMetrics
  security : SecurityMetrics

/-- Embedding of `MetricsAccumulator._estimate_savings` (lines 421-431):
unattached EBS volumes at 10.0 each, unassociated Elastic IPs at 3.60
each, rounded to 2 decimal places. -/
def estimate_savings (s : MetricsState) : ℚ :=
  pyRoundTo ((s.ebs_unattached : ℚ) * 10 + (s.eip_unassociated : ℚ) * (36 / 10)) 2

/-- Embedding of `MetricsAccumulator.get_metrics`
(collectors/metrics_calculator.py lines 317-419): a pure function of the
accumulated counters; the `ec2`/`rds` sections exist only when their
totals are positive; every percentage goes through `_safe_pct`. -/
def get_metrics (s : MetricsState) : Metrics :=
  let total_resources := (s.resource_counts.map Prod.snd).sum
  let account_dist := (sortByCountDesc s.account_counts).take 10 |>.map
    (fun p => AccountDistEntry.mk p.1 ((alookup s.account_names p.1).getD p.1) p.2)
  let region_dist := (sortByCountDesc s.region_counts).take 10
  { globalSection :=
      { totalResources := total_resources
        resourceCounts := s.resource_counts
        accountDistribution := account_dist
        regionDistribution := region_dist
        regionsCollected := s.regions_collected.length
        resourceRegionsFound := s.region_counts.length }
    ec2 :=
      if 0 < s.ec2_total then
        some
          { total := s.ec2_total
            byState := s.ec2_states
            healthStatus := s.ec2_health
            cloudwatchAgent :=
              { memoryMonitoring := s.ec2_cw_memory
                diskMonitoring := s.ec2_cw_disk
                bothEnabled := s.ec2_cw_both
                noneEnabled := s.ec2_running - max s.ec2_cw_memory s.ec2_cw_disk
                percentageWithMemory := safe_pct s.ec2_cw_memory s.ec2_running
                percentageWithDisk := safe_pct s.ec2_cw_disk s.ec2_running }
            ssmAgent :=
              { connected := s.ec2_ssm_connected
                notConnected := s.ec2_ssm_notconnected
                notInstalled := s.ec2_ssm_notinstalled
                percentageConnected := safe_pct s.ec2_ssm_connected s.ec2_running } }
      else none
    rds :=
      if 0 < s.rds_total then
        some
          { total := s.rds_total
            available := s.rds_available
            engines := s.rds_engines
            multiAZ := s.rds_multiaz
            performanceInsights := s.rds_performance_insights
            percentageMultiAZ := safe_pct s.rds_multiaz s.rds_total
            percentageWithPerfInsights :=
              safe_pct s.rds_performance_insights s.rds_total }
      else none
    storage :=
      { s3Buckets := s.s3_total
        s3WithLifecycle := s.s3_with_lifecycle
        ebsVolumes := lookupCount s.resource_counts "EBSVolume"
        ebsSnapshots := lookupCount s.resource_counts "EBSSnapshot"
        amiSnapshots := lookupCount s.resource_counts "AMI"
        efsFileSystems := s.efs_total
        fsxFileSystems := s.fsx_total
        backupPlans := s.backup_plans
        backupVaults := s.backup_vaults
        backupRecoveryPoints := s.backup_recovery_points }
    cost :=
      { unattachedEBSVolumes := s.ebs_unattached
        unassociatedElasticIPs := s.eip_unassociated
        potentialMonthlySavings := estimate_savings s }
    security :=
      { securityGroups := s.sg_total
        exposedSecurityGroups := s.sg_with_exposed_ports
        percentageExposed := safe_pct s.sg_with_exposed_ports s.sg_total } }

/-- The rollup dict as consumed by `save_metrics_to_dynamodb`: the
`global` section is indexed directly (`metrics['global']`), the other five
are fetched with `metrics.get(...)` and may be absent. -/
structure MetricsDict where
  globalSection : Dict
  ec2 : Option Dict
  rds : Option Dict
  storage : Option Dict
  cost : Option Dict
  security : Option Dict

/-- Python truthiness of `metrics.get(section)`: present and non-empty. -/
def sectionTruthy : Option Dict → Bool
  | some d => !d.isEmpty
  | none => false

/-- The envelope shared by every metric item built in
`save_metrics_to_dynamodb` (collectors/metrics_calculator.py lines
480-602): fixed id, resource type and account fields, the run's date, the
`isMetric` marker, timestamps and the rounded processing duration. -/
def metricItemBase (idStr rType aName date_str iso : String) (dur : ℚ) : Dict :=
  [("id", .strV idStr),
   ("resourceType", .strV rType),
   ("accountId", .strV "GLOBAL"),
   ("accountName", .strV aName),
   ("region", .strV "global"),
   ("metricDate", .strV date_str),
   ("isMetric", .boolV true),
   ("createdAt", .strV iso),
   ("updatedAt", .strV iso),
   ("processingDurationSeconds", .decV (pyRoundTo dur 3))]

/-- The `global_item_current` dict of `save_metrics_to_dynamodb`
(collectors/metrics_calculator.py lines 480-503): the envelope, the two
distribution lists stored verbatim, and the flattened global summary laid
on top. -/
def globalMetricItemCurrent (metrics : MetricsDict) (date_str iso : String)
    (dur : ℚ) : Dict :=
  let globalBase :=
    metricItemBase "METRICS-GLOBAL-CURRENT" "METRIC_SUMMARY" "Global Metrics"
      date_str iso dur
  let globalBase := dinsert globalBase "accountDistribution"
    (dget metrics.globalSection "accountDistribution" (.listV []))
  let globalBase := dinsert globalBase "regionDistribution"
    (dget metrics.globalSection "regionDistribution" (.listV []))
  let globalFlat := flatten_metric []
    [("totalResources", dget metrics.globalSection "totalResources" (.intV 0)),
     ("resourceCounts", dget metrics.globalSection "resourceCounts" (.mapV [])),
     ("regionsCollected", dget metrics.globalSection "regionsCollected" (.intV 0)),
     ("resourceRegionsFound",
       dget metrics.globalSection "resourceRegionsFound" (.intV 0))]
  dictUpdate globalBase globalFlat

/-- A non-global section item: the section dict flattened onto its
envelope (`xxx_item_current = flatten_metric(base, metrics[section])`). -/
def sectionMetricItem (idStr rType aName date_str iso : String) (dur : ℚ)
    (d : Dict) : Dict :=
  flatten_metric (metricItemBase idStr rType aName date_str iso dur) d

/-- Embedding of the `items_to_save` construction of
`save_metrics_to_dynamodb` (collectors/metrics_calculator.py lines
477-602): the global item is appended and duplicated under the dated
historical id; the EC2 section, when truthy, is flattened onto its
envelope and also duplicated under a dated id; the RDS, storage, cost and
security sections, when truthy, are flattened onto their envelopes with
only the fixed `-CURRENT` id.  `date_str`, `iso` and `dur` are the run's
date string, formatted timestamp and processing duration. -/
def save_metrics_items (metrics : MetricsDict) (date_str iso : String)
    (dur : ℚ) : List Dict :=
  let global_item_current := globalMetricItemCurrent metrics date_str iso dur
  let global_item_historical :=
    dinsert global_item_current "id" (.strV ("METRICS-GLOBAL-" ++ date_str))
  let items := [global_item_current, global_item_historical]
  let items := items ++
    (match metrics.ec2 with
     | some d =>
       if d.isEmpty then []
       else
         let cur := sectionMetricItem "METRICS-EC2-CURRENT" "METRIC_EC2_HEALTH"
           "EC2 Health Metrics" date_str iso dur d
         [cur, dinsert cur "id" (.strV ("METRICS-EC2-" ++ date_str))]
     | none => [])
  let items := items ++
    (match metrics.rds with
     | some d =>
       if d.isEmpty then []
       else
         [sectionMetricItem "METRICS-RDS-CURRENT" "METRIC_RDS" "RDS Metrics"
           date_str iso dur d]
     | none => [])
  let items := items ++
    (match metrics.storage with
     | some d =>
       if d.isEmpty then []
       else
         [sectionMetricItem "METRICS-STORAGE-CURRENT" "METRIC_STORAGE"
           "Storage Metrics" date_str iso dur d]
     | none => [])
  let items := items ++
    (match metrics.cost with
     | some d =>
       if d.isEmpty then []
       else
         [sectionMetricItem "METRICS-COST-CURRENT" "METRIC_COST"
           "Cost Optimization" date_str iso dur d]
     | none => [])
  let items := items ++
    (match metrics.security with
     | some d =>
       if d.isEmpty then []
       else
         [sectionMetricItem "METRICS-SECURITY-CURRENT" "METRIC_SECURITY"
           "Security Metrics" date_str iso dur d]
     | none => [])
  items

/-- The `id` attributes of the metric items submitted for persistence. -/
def savedMetricIds (metrics : MetricsDict) (date_str iso : String)
    (dur : ℚ) : List (Option DVal) :=
  (save_metrics_items metrics date_str iso dur).map (fun d => dlookup d "id")

/-- Projection applied by the clearing scan of `clear_dynamodb_table`
(cleaner.py lines 164-181): the `ProjectionExpression` names only the
partition key (and the sort key, absent here: `SORT_KEY_NAME = None`), so
the scanned image of a stored item keeps only that attribute. -/
def projectScan (pk : String) (stored : Dict) : Dict :=
  stored.filter (fun kv => kv.1 == pk)

/-- Embedding of `item.get("isMetric", {}).get("BOOL") is True` (cleaner.py
line 199) on a scanned item in the low-level client wire format, where an
attribute value is a one-key type map such as `{"BOOL": true}`. -/
def isMetricFlagTrue (item : Dict) : Bool :=
  match dlookup item "isMetric" with
  | some (.mapV m) =>
    match dlookup m "BOOL" with
    | some (.boolV true) => true
    | _ => false
  | _ => false

/-- Embedding of the id extraction of cleaner.py lines 202-203:
`id_raw if isinstance(id_raw, str) else str(id_raw.get("S", "")) if
isinstance(id_raw, dict) else ""`. -/
def extractIdValue (item : Dict) (pk : String) : String :=
  match dlookup item pk with
  | some (.strV s) => s
  | some (.mapV m) =>
    match dlookup m "S" with
    | some v => pyStr v
    | none => ""
  | _ => ""

/-- Python's `s.startswith(pre)`, as a character-list test. -/
def pyStartsWith (s pre : String) : Bool :=
  pre.data.isPrefixOf s.data

/-- Decision taken for one scanned item by the key-collection loop of
`clear_dynamodb_table` (cleaner.py lines 188-215). -/
inductive ScanDecision where
  | skippedMissingKey : ScanDecision
  | preservedByFlag : ScanDecision
  | preservedByIdHeuristic : ScanDecision
  | enqueuedForDeletion (key : Dict) : ScanDecision

/-- Embedding of the per-item logic of the clearing scan: items missing
the partition key are skipped; items whose scanned image carries
`isMetric = {"BOOL": true}` are preserved; items whose id value starts
with `METRICS-EC2-20` or `METRICS-GLOBAL-20` are preserved; every other
item's key is enqueued for deletion. -/
def scanItemDecision (pk : String) (item : Dict) : ScanDecision :=
  match dlookup item pk with
  | none => .skippedMissingKey
  | some keyVal =>
    if isMetricFlagTrue item then .preservedByFlag
    else
      let id_value := extractIdValue item pk
      if pyStartsWith id_value "METRICS-EC2-20" ||
         pyStartsWith id_value "METRICS-GLOBAL-20" then .preservedByIdHeuristic
      else .enqueuedForDeletion [(pk, keyVal)]

/-- Full decision pipeline for one stored item: what the clearing utility
does with it, given that the scan only ever shows it the projected
image. -/
def clearTableDecision (pk : String) (stored : Dict) : ScanDecision :=
  scanItemDecision pk (projectScan pk stored)

theorem process_region_eq_sum (cs : List CollectorRun) :
    process_region cs = (cs.map collectorContribution).sum := by
  induction cs with
  | nil => rfl
  | cons c rest ih =>
    simp only [process_region, parallel_collect_and_save, List.map_cons, List.sum_cons]
    cases h : runCollector c with
    | ok r =>
      simp only [collectorContribution, h]
      exact congrArg (r.items_saved + ·) ih
    | error e =>
      simp only [collectorContribution, h]
      exact congrArg (0 + ·) ih

theorem collectorContribution_eq_zero (c : CollectorRun)
    (h : collectorFailed c = true) : collectorContribution c = 0 := by
  unfold collectorFailed at h
  unfold collectorContribution
  cases hr : runCollector c with
  | ok r => rw [hr] at h; simp at h
  | error e => rfl

/-- C4: for every account, a role-assumption failure (authorization
`ClientError` or any unexpected exception from `sts.assume_role`) makes
`process_account` return 0 immediately — the remaining account steps are
never consulted — and the result is an ordinary value, not a propagated
exception, so a single bad account never stops the overall run. -/
theorem role_failure_account_returns_zero (e : RoleFailure)
    (collectWithCredentials : Credentials → Except String Nat) :
    process_account (.error e) collectWithCredentials = 0 := rfl

/-- C2: for the collectors run for one (account, region) pair, every
submitted collector yields exactly one outcome; the region's total is the
sum of the per-collector saved counts, where a collector whose `collect()`
or `save()` raises contributes exactly 0 (inserting a failing collector
anywhere leaves the total unchanged, so siblings are unaffected); and a
region whose collectors all fail returns 0 without raising. -/
theorem region_collector_failure_isolation (cs pre post : List CollectorRun)
    (bad : CollectorRun) (failures : List CollectorRun)
    (hbad : collectorFailed bad = true)
    (hfailures : ∀ c ∈ failures, collectorFailed c = true) :
    (parallel_collect_and_save cs).length = cs.length ∧
    process_region cs = (cs.map collectorContribution).sum ∧
    process_region (pre ++ bad :: post) = process_region (pre ++ post) ∧
    process_region failures = 0 := by
  refine ⟨by simp [parallel_collect_and_save], process_region_eq_sum cs, ?_, ?_⟩
  · rw [process_region_eq_sum, process_region_eq_sum]
    simp [List.map_append, List.sum_append, collectorContribution_eq_zero bad hbad]
  · rw [process_region_eq_sum]
    apply List.sum_eq_zero
    intro x hx
    obtain ⟨c, hc, hcx⟩ := List.mem_map.mp hx
    rw [← hcx]
    exact collectorContribution_eq_zero c (hfailures c hc)

/-- A failing collector used by the C2 witness: its `collect()` raises. -/
def badCollectorRun : CollectorRun :=
  ⟨.error "collect raised", .ok 0⟩

/-- A succeeding collector used by the C2 witness, saving `n` items. -/
def okCollectorRun (n : Nat) : CollectorRun :=
  ⟨.ok [], .ok n⟩

theorem region_collector_failure_isolation_witness :
    (parallel_collect_and_save [okCollectorRun 2, badCollectorRun, okCollectorRun 3]).length = 3 ∧
    process_region [okCollectorRun 2, badCollectorRun, okCollectorRun 3] =
      ([okCollectorRun 2, badCollectorRun, okCollectorRun 3].map collectorContribution).sum ∧
    process_region ([okCollectorRun 2] ++ badCollectorRun :: [okCollectorRun 3]) =
      process_region ([okCollectorRun 2] ++ [okCollectorRun 3]) ∧
    process_region [badCollectorRun, badCollectorRun, badCollectorRun] = 0 :=
  region_collector_failure_isolation
    [okCollectorRun 2, badCollectorRun, okCollectorRun 3]
    [okCollectorRun 2] [okCollectorRun 3] badCollectorRun
    [badCollectorRun, badCollectorRun, badCollectorRun]
    (by simp [collectorFailed, runCollector, badCollectorRun, Bind.bind, Except.bind])
    (by intro c hc
        simp only [List.mem_cons, List.not_mem_nil, or_false] at hc
        rcases hc with h | h | h <;>
          simp [h, collectorFailed, runCollector, badCollectorRun, Bind.bind, Except.bind])

theorem consumeAccountFutures_stops (remaining : Nat → Nat)
    (pre post : List (Except String Nat)) (i : Nat)
    (hdl : remaining (i + pre.length) < 15000) :
    consumeAccountFutures remaining i (pre ++ post) =
      consumeAccountFutures remaining i pre := by
  induction pre generalizing i with
  | nil =>
    simp only [List.length_nil, Nat.add_zero] at hdl
    cases post with
    | nil => simp
    | cons f fs => simp [consumeAccountFutures, hdl]
  | cons f fs ih =>
    by_cases hr : remaining i < 15000
    · simp [consumeAccountFutures, hr]
    · have : remaining ((i + 1) + fs.length) < 15000 := by
        simpa [List.length_cons, Nat.add_comm, Nat.add_assoc, Nat.add_left_comm] using hdl
      cases f with
      | ok n => simp [consumeAccountFutures, hr, ih (i + 1) this]
      | error e => simp [consumeAccountFutures, hr, ih (i + 1) this]

theorem consumeAccountFutures_processed_le (remaining : Nat → Nat)
    (fs : List (Except String Nat)) (i : Nat) :
    (consumeAccountFutures remaining i fs).1 ≤ fs.length := by
  induction fs generalizing i with
  | nil => simp [consumeAccountFutures]
  | cons f rest ih =>
    by_cases hr : remaining i < 15000
    · simp [consumeAccountFutures, hr]
    · cases f with
      | ok n =>
        simp only [consumeAccountFutures, hr, if_neg hr, List.length_cons]
        exact Nat.succ_le_succ (ih (i + 1))
      | error e =>
        simp only [consumeAccountFutures, hr, if_neg hr, List.length_cons]
        exact Nat.le_succ_of_le (ih (i + 1))

/-- C3: whenever the remaining-time reading falls below the 15000 ms
safety threshold at the deadline check that precedes consuming a completed
account result (here: the check at position `pre.length`, with the
results in `post` still unconsumed), the driver loop consumes nothing
beyond that point — the run's outcome equals the outcome on the consumed
prefix alone — and the returned summary is well formed with
`accountsProcessedCount` strictly below `totalAccountsInOrg`. -/
theorem deadline_stops_consumption (remaining : Nat → Nat)
    (pre post : List (Except String Nat)) (hpost : post ≠ [])
    (hdl : remaining pre.length < 15000) :
    consumeAccountFutures remaining 0 (pre ++ post) =
      consumeAccountFutures remaining 0 pre ∧
    (lambdaSummary remaining (pre ++ post)).accountsProcessedCount <
      (lambdaSummary remaining (pre ++ post)).totalAccountsInOrg := by
  have hstop := consumeAccountFutures_stops remaining pre post 0
    (by simpa using hdl)
  refine ⟨hstop, ?_⟩
  have hle := consumeAccountFutures_processed_le remaining pre 0
  have hpostlen : 0 < post.length := List.length_pos.mpr hpost
  simp only [lambdaSummary, hstop, List.length_append]
  omega

/-- Remaining-time readings of the C3 witness: ample time at the first
check, below threshold afterwards. -/
def witnessRemaining : Nat → Nat := fun i => if i = 0 then 600000 else 3000

theorem deadline_stops_consumption_witness :
    consumeAccountFutures witnessRemaining 0 ([.ok 3] ++ [.ok 5]) =
      consumeAccountFutures witnessRemaining 0 [.ok 3] ∧
    (lambdaSummary witnessRemaining ([.ok 3] ++ [.ok 5])).accountsProcessedCount <
      (lambdaSummary witnessRemaining ([.ok 3] ++ [.ok 5])).totalAccountsInOrg :=
  deadline_stops_consumption witnessRemaining [.ok 3] [.ok 5]
    (by simp) (by simp [witnessRemaining])

/-- C7: `save()` hands the buffered records to batch persistence against
all configured stores and clears the buffer first, so records are
write-once: whatever the persistence outcome (including a raised
exception, reported as 0), an immediately repeated `save()` is a no-op
returning 0 and leaving the state unchanged; with at least one configured
table the buffer is empty after any `save()`. -/
theorem save_write_once
    (persist : List Store → List Dict → Except String Nat)
    (c : CollectorState) :
    ResourceCollector.save persist (ResourceCollector.save persist c).2 =
      (0, (ResourceCollector.save persist c).2) ∧
    (c.tables ≠ [] → ((ResourceCollector.save persist c).2).items = []) ∧
    (c.items ≠ [] → c.tables ≠ [] →
      (ResourceCollector.save persist c).1 =
        (match persist c.tables c.items with
         | .ok n => n
         | .error _ => 0)) := by
  by_cases h1 : c.items.isEmpty
  · have hitems : c.items = [] := by simpa using h1
    constructor
    · simp [ResourceCollector.save, h1]
    · constructor
      · intro _
        simp [ResourceCollector.save, h1, hitems]
      · intro hne _
        exact absurd hitems hne
  · by_cases h2 : c.tables.isEmpty
    · have htables : c.tables = [] := by simpa using h2
      constructor
      · simp [ResourceCollector.save, h1, h2]
      · constructor
        · intro hne
          exact absurd htables hne
        · intro _ hne
          exact absurd htables hne
    · cases hp : persist c.tables c.items with
      | ok n =>
        constructor
        · simp [ResourceCollector.save, h1, h2, hp]
        · constructor
          · intro _
            simp [ResourceCollector.save, h1, h2, hp]
          · intro _ _
            simp [ResourceCollector.save, h1, h2, hp]
      | error e =>
        constructor
        · simp [ResourceCollector.save, h1, h2, hp]
        · constructor
          · intro _
            simp [ResourceCollector.save, h1, h2, hp]
          · intro _ _
            simp [ResourceCollector.save, h1, h2, hp]

/-- Persistence behaviour of the C7 witness: the underlying write raises. -/
def failingPersist : List Store → List Dict → Except String Nat :=
  fun _ _ => .error "ProvisionedThroughputExceededException"

/-- Collector state of the C7 witness: one buffered item, one table. -/
def witnessCollector : CollectorState :=
  ⟨"123456789012", "Acct", "us-east-1", [alwaysUnprocessedStore],
   [[("id", .strV "x")]]⟩

theorem save_write_once_witness :
    ResourceCollector.save failingPersist
        (ResourceCollector.save failingPersist witnessCollector).2 =
      (0, (ResourceCollector.save failingPersist witnessCollector).2) ∧
    ((ResourceCollector.save failingPersist witnessCollector).2).items = [] ∧
    (ResourceCollector.save failingPersist witnessCollector).1 = 0 := by
  have h := save_write_once failingPersist witnessCollector
  refine ⟨h.1, h.2.1 (by simp [witnessCollector]), ?_⟩
  have h3 := h.2.2 (by simp [witnessCollector]) (by simp [witnessCollector])
  simpa [failingPersist] using h3

/-- C8: `get_metrics` is a total function of the accumulator state (so it
never raises, and its integer percentages are exact — no NaN/Infinity
exists in its codomain); on any state, `_safe_pct` returns 0 whenever its
denominator counter is zero; a state with zero EC2 records omits the
`ec2` section and one with zero RDS records omits the `rds` section; with
zero security groups the security percentage is 0; and inside a present
`ec2` section every running-instance percentage is 0 when the running
counter is zero. -/
theorem get_metrics_zero_denominator_safe (s : MetricsState) :
    (∀ n, safe_pct n 0 = 0) ∧
    (s.ec2_total = 0 → (get_metrics s).ec2 = none) ∧
    (s.rds_total = 0 → (get_metrics s).rds = none) ∧
    (s.sg_total = 0 → (get_metrics s).security.percentageExposed = 0) ∧
    (∀ m, (get_metrics s).ec2 = some m → s.ec2_running = 0 →
      m.cloudwatchAgent.percentageWithMemory = 0 ∧
      m.cloudwatchAgent.percentageWithDisk = 0 ∧
      m.ssmAgent.percentageConnected = 0) := by
  refine ⟨fun n => by simp [safe_pct], ?_, ?_, ?_, ?_⟩
  · intro h
    simp [get_metrics, h]
  · intro h
    simp [get_metrics, h]
  · intro h
    simp [get_metrics, h, safe_pct]
  · intro m hm hr
    by_cases h : 0 < s.ec2_total
    · simp only [get_metrics, if_pos h, Option.some.injEq] at hm
      subst hm
      simp [safe_pct, hr]
    · simp [get_metrics, if_neg h] at hm

theorem get_metrics_zero_denominator_safe_witness :
    safe_pct 5 0 = 0 ∧
    (get_metrics resetState).ec2 = none ∧
    (get_metrics resetState).rds = none ∧
    (get_metrics resetState).security.percentageExposed = 0 :=
  ⟨(get_metrics_zero_denominator_safe resetState).1 5,
   (get_metrics_zero_denominator_safe resetState).2.1 rfl,
   (get_metrics_zero_denominator_safe resetState).2.2.1 rfl,
   (get_metrics_zero_denominator_safe resetState).2.2.2.1 rfl⟩

/-- A well-formed resource record: truthy as a dict and still truthy after
`_to_dynamodb_compatible` (every record built by `add_item` carries at
least its `id` string and satisfies this). -/
def validRecord (it : Dict) : Prop :=
  it.isEmpty = false ∧ (sanitizeDict it).isEmpty = false

instance (it : Dict) : Decidable (validRecord it) := by
  unfold validRecord
  infer_instance

theorem length_chunksOfAux_25 (fuel : Nat) :
    ∀ l : List Dict, l.length ≤ fuel →
      (chunksOfAux 25 fuel l).length = (l.length + 24) / 25 := by
  induction fuel with
  | zero =>
    intro l hl
    have : l = [] := List.length_eq_zero.mp (Nat.le_zero.mp hl)
    subst this
    simp [chunksOfAux]
  | succ fuel ih =>
    intro l hl
    cases l with
    | nil => simp [chunksOfAux]
    | cons x xs =>
      simp only [chunksOfAux, List.length_cons]
      have hdrop : ((x :: xs).drop 25).length = xs.length + 1 - 25 := by
        simp [List.length_drop]
      have hfuel : ((x :: xs).drop 25).length ≤ fuel := by
        rw [hdrop]
        simp only [List.length_cons] at hl
        omega
      rw [ih ((x :: xs).drop 25) hfuel, hdrop]
      omega

theorem length_chunksOf_25 (l : List Dict) :
    (chunksOf 25 l).length = (l.length + 24) / 25 :=
  length_chunksOfAux_25 l.length l (Nat.le_refl _)

theorem mem_chunksOfAux_25 (fuel : Nat) :
    ∀ l c, c ∈ chunksOfAux 25 fuel l → c ≠ [] ∧ ∀ it ∈ c, it ∈ l := by
  induction fuel with
  | zero =>
    intro l c hc
    simp [chunksOfAux] at hc
  | succ fuel ih =>
    intro l c hc
    cases l with
    | nil => simp [chunksOfAux] at hc
    | cons x xs =>
      simp only [chunksOfAux, List.mem_cons] at hc
      rcases hc with h | h
      · subst h
        refine ⟨by simp [List.take], ?_⟩
        intro it hit
        exact List.take_subset 25 (x :: xs) hit
      · obtain ⟨hne, hmem⟩ := ih ((x :: xs).drop 25) c h
        exact ⟨hne, fun it hit => List.drop_subset 25 (x :: xs) (hmem it hit)⟩

theorem sanitizedItemsOf_nonempty (chunk : List Dict) (hne : chunk ≠ [])
    (hval : ∀ it ∈ chunk, validRecord it) :
    (validItemsOf chunk).isEmpty = false ∧
    (sanitizedItemsOf chunk).isEmpty = false := by
  cases chunk with
  | nil => exact absurd rfl hne
  | cons it rest =>
    obtain ⟨h1, h2⟩ := hval it (List.mem_cons_self it rest)
    constructor
    · simp [validItemsOf, List.filter, h1]
    · simp only [sanitizedItemsOf, validItemsOf, List.filter, h1, Bool.not_false,
        List.map_cons, List.filter_cons, h2]
      simp

theorem writeChunkLoop_alwaysUnprocessed (fuel : Nat) :
    ∀ callIdx request written, request.isEmpty = false →
      writeChunkLoop alwaysUnprocessedStore callIdx fuel request written =
        (written, fuel) := by
  induction fuel with
  | zero => intro _ _ _ _; rfl
  | succ fuel ih =>
    intro callIdx request written hreq
    simp only [writeChunkLoop, alwaysUnprocessedStore, Nat.sub_self, Nat.add_zero,
      hreq, Bool.false_eq_true, if_false]
    rw [ih (callIdx + 1) request written hreq]

theorem foldl_writeChunkStep_initialCalls (store : Store) (chunks : List (List Dict))
    (h : ∀ c ∈ chunks, (validItemsOf c).isEmpty = false ∧
      (sanitizedItemsOf c).isEmpty = false) :
    ∀ acc : Nat × Nat × Nat,
      (chunks.foldl (writeChunkStep store) acc).2.1 = acc.2.1 + chunks.length := by
  induction chunks with
  | nil => intro acc; simp
  | cons c rest ih =>
    intro acc
    obtain ⟨h1, h2⟩ := h c (List.mem_cons_self c rest)
    have hrest : ∀ c ∈ rest, (validItemsOf c).isEmpty = false ∧
        (sanitizedItemsOf c).isEmpty = false :=
      fun c hc => h c (List.mem_cons_of_mem _ hc)
    simp only [List.foldl_cons, List.length_cons]
    rw [ih hrest]
    simp only [writeChunkStep, h1, h2, Bool.false_eq_true, if_false]
    omega

theorem foldl_writeChunkStep_written_always (chunks : List (List Dict))
    (h : ∀ c ∈ chunks, (validItemsOf c).isEmpty = false ∧
      (sanitizedItemsOf c).isEmpty = false) :
    ∀ acc : Nat × Nat × Nat,
      (chunks.foldl (writeChunkStep alwaysUnprocessedStore) acc).1 = acc.1 := by
  induction chunks with
  | nil => intro acc; simp
  | cons c rest ih =>
    intro acc
    obtain ⟨h1, h2⟩ := h c (List.mem_cons_self c rest)
    have hrest : ∀ c ∈ rest, (validItemsOf c).isEmpty = false ∧
        (sanitizedItemsOf c).isEmpty = false :=
      fun c hc => h c (List.mem_cons_of_mem _ hc)
    simp only [List.foldl_cons]
    rw [ih hrest]
    simp only [writeChunkStep, h1, h2, Bool.false_eq_true, if_false,
      writeChunkLoop_alwaysUnprocessed 5 acc.2.2 (sanitizedItemsOf c) 0 h2,
      Nat.add_zero]

theorem chunksOf_valid (items : List Dict) (hval : ∀ it ∈ items, validRecord it) :
    ∀ c ∈ chunksOf MAX_BATCH_SIZE items, (validItemsOf c).isEmpty = false ∧
      (sanitizedItemsOf c).isEmpty = false := by
  intro c hc
  obtain ⟨hne, hmem⟩ := mem_chunksOfAux_25 items.length items c hc
  exact sanitizedItemsOf_nonempty c hne (fun it hit => hval it (hmem it hit))

/-- C5: for every non-empty list of N well-formed records and a single
store, `batch_write_to_dynamodb` issues exactly `ceil(N/25)` initial
batch-write calls — one per 25-record chunk — whatever responses
(unprocessed subsets or errors) the store returns on each call. -/
theorem batch_write_initial_calls (store : Store) (items : List Dict)
    (h1 : items.isEmpty = false) (h2 : ∀ it ∈ items, validRecord it) :
    (batch_write_to_dynamodb [store] items).initialCalls =
      (items.length + 24) / 25 := by
  simp only [batch_write_to_dynamodb, h1, List.isEmpty_cons, Bool.or_self,
    Bool.false_eq_true, if_false, List.map_cons, List.map_nil]
  show (writeToTable store items).initialCalls + 0 = _
  simp only [writeToTable, Nat.add_zero]
  rw [foldl_writeChunkStep_initialCalls store _ (chunksOf_valid items h2) (0, 0, 0)]
  simpa [MAX_BATCH_SIZE] using length_chunksOf_25 items

/-- A one-record item list for the C5 witness; its 26 copies make 2
chunks. -/
def witnessItem : Dict := [("id", .strV "r")]

/-- A store that processes everything, for the C5 witness. -/
def fullyProcessingStore : Store := fun _ _ => StoreResp.ok []

theorem batch_write_initial_calls_witness :
    (batch_write_to_dynamodb [fullyProcessingStore]
      (List.replicate 26 witnessItem)).initialCalls = 2 := by
  have h := batch_write_initial_calls fullyProcessingStore
    (List.replicate 26 witnessItem) (by decide)
    (by decide)
  simpa using h

theorem batchDeleteLoop_alwaysUnprocessed (fuel : Nat) :
    ∀ callIdx request deleted, request.isEmpty = false →
      batchDeleteLoop alwaysUnprocessedStore callIdx fuel request deleted =
        (.maxRetriesExhausted request.length, fuel) := by
  induction fuel with
  | zero =>
    intro _ request _ hreq
    simp [batchDeleteLoop, hreq]
  | succ fuel ih =>
    intro callIdx request deleted hreq
    simp only [batchDeleteLoop, alwaysUnprocessedStore, Nat.sub_self, Nat.add_zero,
      hreq, Bool.false_eq_true, if_false]
    rw [ih (callIdx + 1) request deleted hreq]

/-- C1: against a store that reports every submitted item as unprocessed
on every call, the delete path (`batch_delete_items`, retry ceiling 7)
raises its `RuntimeError` after issuing exactly 7 calls, while the write
path (`batch_write_to_dynamodb`, retry ceiling 5) returns an ordinary
count — no exception — of 0 written items, strictly less than the number
of records requested, and still attempts every one of the `ceil(N/25)`
chunks. -/
theorem retry_exhaustion_delete_raises_write_returns
    (reqs items : List Dict)
    (hr : reqs.isEmpty = false) (hi : items.isEmpty = false)
    (hval : ∀ it ∈ items, validRecord it) :
    batch_delete_items alwaysUnprocessedStore reqs =
      (.maxRetriesExhausted reqs.length, 7) ∧
    (batch_write_to_dynamodb [alwaysUnprocessedStore] items).written = 0 ∧
    (batch_write_to_dynamodb [alwaysUnprocessedStore] items).written <
      items.length ∧
    (batch_write_to_dynamodb [alwaysUnprocessedStore] items).initialCalls =
      (items.length + 24) / 25 := by
  have hwritten : (batch_write_to_dynamodb [alwaysUnprocessedStore] items).written = 0 := by
    simp only [batch_write_to_dynamodb, hi, List.isEmpty_cons, Bool.or_self,
      Bool.false_eq_true, if_false, List.map_cons, List.map_nil]
    show (writeToTable alwaysUnprocessedStore items).written = 0
    simp only [writeToTable]
    exact foldl_writeChunkStep_written_always _ (chunksOf_valid items hval) (0, 0, 0)
  refine ⟨?_, hwritten, ?_, batch_write_initial_calls alwaysUnprocessedStore items hi hval⟩
  · simp only [batch_delete_items, hr, Bool.false_eq_true, if_false]
    exact batchDeleteLoop_alwaysUnprocessed 7 0 reqs 0 hr
  · rw [hwritten]
    have : items ≠ [] := by
      intro h
      rw [h] at hi
      simp at hi
    exact List.length_pos.mpr this

theorem retry_exhaustion_delete_raises_write_returns_witness :
    batch_delete_items alwaysUnprocessedStore [[("id", DVal.strV "k")]] =
      (.maxRetriesExhausted 1, 7) ∧
    (batch_write_to_dynamodb [alwaysUnprocessedStore] [witnessItem]).written = 0 ∧
    (batch_write_to_dynamodb [alwaysUnprocessedStore] [witnessItem]).written < 1 ∧
    (batch_write_to_dynamodb [alwaysUnprocessedStore] [witnessItem]).initialCalls = 1 := by
  have h := retry_exhaustion_delete_raises_write_returns
    [[("id", DVal.strV "k")]] [witnessItem] (by decide) (by decide) (by decide)
  simpa using h

theorem dlookup_eq_none_of_forall_ne (l : Dict) (q : String)
    (h : ∀ v, (q, v) ∉ l) : dlookup l q = none := by
  induction l with
  | nil => rfl
  | cons kv rest ih =>
    obtain ⟨k₁, v₁⟩ := kv
    have hk : k₁ ≠ q := by
      intro he
      subst he
      exact h v₁ (List.mem_cons_self _ _)
    simp only [dlookup, if_neg hk]
    exact ih (fun v hv => h v (List.mem_cons_of_mem _ hv))

/-- The envelope keys stamped by `add_item`. -/
def envelopeKeys : List String :=
  ["accountId", "id", "accountName", "resourceType", "region", "createdAt",
   "updatedAt"]

/-- C6 counterexample: the claim "the appended record's id equals
`{accountId}-{region}-{resourceType}-{resourceId}` for every call" fails,
because `item.update` lays non-null properties over the envelope: a
property bag carrying a non-null `id` overrides the derived id. -/
def c6State : CollectorState :=
  ⟨"123456789012", "Acct", "us-east-1", [], []⟩

theorem add_item_id_override_counterexample :
    ((add_item c6State "VPC" "vpc-1" [("id", DVal.strV "evil")] "t").items.map
      (fun it => dlookup it "id")) = [some (.strV "evil")] ∧
    some (DVal.strV "evil") ≠
      some (DVal.strV "123456789012-us-east-1-VPC-vpc-1") := by
  constructor
  · rfl
  · simp

/-- C6 as amended: provided the property bag carries no non-null `id`
entry (true of every `add_item` call site in the repository), the appended
record's id equals the deterministic string
`{accountId}-{itemRegion}-{resourceType}-{resourceId}` — a pure function
of the account, the resolved region, the type and the native id, so
recomputing it for the same inputs yields the same value — and every
null-valued property outside the envelope fields is dropped rather than
stored on the record. -/
theorem add_item_id_and_null_drop (c : CollectorState)
    (resource_type resource_id : String) (properties : Dict) (now : String)
    (hid : ∀ v, ("id", v) ∈ properties → v = DVal.nullV) :
    ∃ item, (add_item c resource_type resource_id properties now).items =
        c.items ++ [item] ∧
      dlookup item "id" = some (.strV (c.account_id ++ "-" ++
        pyStr (addItemRegion c properties) ++ "-" ++ resource_type ++ "-" ++
        resource_id)) ∧
      ∀ k, k ∉ envelopeKeys → (∀ v, (k, v) ∈ properties → v = DVal.nullV) →
        dlookup item k = none := by
  refine ⟨dictUpdate
      [("accountId", .strV c.account_id),
       ("id", .strV (c.account_id ++ "-" ++ pyStr (addItemRegion c properties) ++
          "-" ++ resource_type ++ "-" ++ resource_id)),
       ("accountName", .strV c.account_name),
       ("resourceType", .strV resource_type),
       ("region", addItemRegion c properties),
       ("createdAt", .strV now),
       ("updatedAt", .strV now)]
      (properties.filter (fun kv => !kv.2.isNull)), rfl, ?_, ?_⟩
  · have hnone : dlookup (properties.filter (fun kv => !kv.2.isNull)) "id" = none := by
      apply dlookup_eq_none_of_forall_ne
      intro v hv
      have hmem := List.mem_filter.mp hv
      have := hid v hmem.1
      subst this
      simp [DVal.isNull] at hmem
    rw [dlookup_dictUpdate_of_notMem _ _ _ hnone]
    simp [dlookup]
  · intro k hk hnull
    have hnone : dlookup (properties.filter (fun kv => !kv.2.isNull)) k = none := by
      apply dlookup_eq_none_of_forall_ne
      intro v hv
      have hmem := List.mem_filter.mp hv
      have := hnull v hmem.1
      subst this
      simp [DVal.isNull] at hmem
    rw [dlookup_dictUpdate_of_notMem _ _ _ hnone]
    simp only [envelopeKeys, List.mem_cons, List.not_mem_nil, or_false,
      not_or] at hk
    obtain ⟨h1, h2, h3, h4, h5, h6, h7⟩ := hk
    simp [dlookup, Ne.symm h1, Ne.symm h2, Ne.symm h3, Ne.symm h4,
      Ne.symm h5, Ne.symm h6, Ne.symm h7]

/-- Property bag of the C6 witness: one ordinary property, one null
property. -/
def witnessProperties : Dict :=
  [("note", DVal.strV "x"), ("legacy", DVal.nullV)]

theorem add_item_id_and_null_drop_witness :
    ((add_item c6State "VPC" "vpc-1" witnessProperties "t").items.map
      (fun it => dlookup it "id")) =
      [some (.strV "123456789012-us-east-1-VPC-vpc-1")] ∧
    ((add_item c6State "VPC" "vpc-1" witnessProperties "t").items.map
      (fun it => dlookup it "legacy")) = [none] := by
  obtain ⟨item, h1, h2, h3⟩ := add_item_id_and_null_drop c6State "VPC" "vpc-1"
    witnessProperties "t"
    (by intro v hv; simp [witnessProperties] at hv)
  have h4 := h3 "legacy" (by simp [envelopeKeys])
    (by intro v hv
        simp only [witnessProperties, List.mem_cons, List.not_mem_nil, or_false,
          Prod.mk.injEq] at hv
        rcases hv with ⟨h, _⟩ | ⟨_, h⟩
        · simp at h
        · exact h)
  have hitems : (add_item c6State "VPC" "vpc-1" witnessProperties "t").items = [item] := by
    simpa [c6State] using h1
  rw [hitems]
  simp only [List.map_cons, List.map_nil, h2, h4]
  exact ⟨rfl, trivial⟩

theorem append_underscore_ne (a b q : String) (hq : ('_' : Char) ∉ q.data) :
    a ++ "_" ++ b ≠ q := by
  intro he
  apply hq
  rw [← he]
  have hu : ("_" : String).data = ['_'] := rfl
  simp [String.data_append, hu]

mutual
theorem flattenPairs_keeps (t : Dict) (pre : String) (ps : List (String × DVal))
    (q : String) (hq : ('_' : Char) ∉ q.data)
    (hpre : pre = "" → ∀ kv ∈ ps, kv.1 ≠ q ∧ kv.1 ≠ "") :
    dlookup (flattenPairs t pre ps) q = dlookup t q := by
  match ps with
  | [] => rw [flattenPairs]
  | (k, v) :: rest =>
    rw [flattenPairs]
    have hrest : pre = "" → ∀ kv ∈ rest, kv.1 ≠ q ∧ kv.1 ≠ "" :=
      fun h kv hkv => hpre h kv (List.mem_cons_of_mem _ hkv)
    rw [flattenPairs_keeps
      (flattenOne t (if pre = "" then k else pre ++ "_" ++ k) v) pre rest q hq hrest]
    by_cases hp : pre = ""
    · obtain ⟨hkq, hk0⟩ := hpre hp (k, v) (List.mem_cons_self _ _)
      rw [if_pos hp]
      exact flattenOne_keeps t k v q hq hkq hk0
    · rw [if_neg hp]
      exact flattenOne_keeps t (pre ++ "_" ++ k) v q hq
        (append_underscore_ne pre k q hq)
        (append_underscore_ne pre k "" (by decide))
termination_by psize ps
decreasing_by all_goals (simp only [psize, lsize, dsize]; omega)
theorem flattenOne_keeps (t : Dict) (k : String) (v : DVal) (q : String)
    (hq : ('_' : Char) ∉ q.data) (hkq : k ≠ q) (hk0 : k ≠ "") :
    dlookup (flattenOne t k v) q = dlookup t q := by
  match v with
  | .mapV m =>
    rw [flattenOne]
    exact flattenPairs_keeps t k m q hq (fun h => absurd h hk0)
  | .listV l =>
    rw [flattenOne]
    exact flattenList_keeps t k 0 l q hq hk0
  | .nullV =>
    rw [flattenOne]
    · exact dlookup_dinsert_ne t k q _ hkq
    · intro m h
      nomatch h
    · intro l h
      nomatch h
  | .strV s =>
    rw [flattenOne]
    · exact dlookup_dinsert_ne t k q _ hkq
    · intro m h
      nomatch h
    · intro l h
      nomatch h
  | .boolV b =>
    rw [flattenOne]
    · exact dlookup_dinsert_ne t k q _ hkq
    · intro m h
      nomatch h
    · intro l h
      nomatch h
  | .intV n =>
    rw [flattenOne]
    · exact dlookup_dinsert_ne t k q _ hkq
    · intro m h
      nomatch h
    · intro l h
      nomatch h
  | .decV x =>
    rw [flattenOne]
    · exact dlookup_dinsert_ne t k q _ hkq
    · intro m h
      nomatch h
    · intro l h
      nomatch h
termination_by dsize v
decreasing_by all_goals (simp only [psize, lsize, dsize]; omega)
theorem flattenList_keeps (t : Dict) (k : String) (i : Nat) (es : List DVal)
    (q : String) (hq : ('_' : Char) ∉ q.data) (hk0 : k ≠ "") :
    dlookup (flattenList t k i es) q = dlookup t q := by
  match es with
  | [] => rw [flattenList]
  | .mapV m :: rest =>
    rw [flattenList]
    rw [flattenList_keeps (flattenPairs t (k ++ "_" ++ toString i) m) k (i + 1)
      rest q hq hk0]
    exact flattenPairs_keeps t (k ++ "_" ++ toString i) m q hq
      (fun h => absurd h (append_underscore_ne k (toString i) "" (by decide)))
  | .listV l :: rest =>
    rw [flattenList]
    rw [flattenList_keeps (flattenPairs t k [(toString i, .listV l)]) k (i + 1)
      rest q hq hk0]
    exact flattenPairs_keeps t k [(toString i, .listV l)] q hq
      (fun h => absurd h hk0)
  | .nullV :: rest =>
    rw [flattenList]
    · rw [flattenList_keeps (dinsert t (k ++ "_" ++ toString i) _) k (i + 1)
        rest q hq hk0]
      exact dlookup_dinsert_ne t _ q _ (append_underscore_ne k (toString i) q hq)
    · intro m h
      nomatch h
    · intro l h
      nomatch h
  | .strV s :: rest =>
    rw [flattenList]
    · rw [flattenList_keeps (dinsert t (k ++ "_" ++ toString i) _) k (i + 1)
        rest q hq hk0]
      exact dlookup_dinsert_ne t _ q _ (append_underscore_ne k (toString i) q hq)
    · intro m h
      nomatch h
    · intro l h
      nomatch h
  | .boolV b :: rest =>
    rw [flattenList]
    · rw [flattenList_keeps (dinsert t (k ++ "_" ++ toString i) _) k (i + 1)
        rest q hq hk0]
      exact dlookup_dinsert_ne t _ q _ (append_underscore_ne k (toString i) q hq)
    · intro m h
      nomatch h
    · intro l h
      nomatch h
  | .intV n :: rest =>
    rw [flattenList]
    · rw [flattenList_keeps (dinsert t (k ++ "_" ++ toString i) _) k (i + 1)
        rest q hq hk0]
      exact dlookup_dinsert_ne t _ q _ (append_underscore_ne k (toString i) q hq)
    · intro m h
      nomatch h
    · intro l h
      nomatch h
  | .decV x :: rest =>
    rw [flattenList]
    · rw [flattenList_keeps (dinsert t (k ++ "_" ++ toString i) _) k (i + 1)
        rest q hq hk0]
      exact dlookup_dinsert_ne t _ q _ (append_underscore_ne k (toString i) q hq)
    · intro m h
      nomatch h
    · intro l h
      nomatch h
termination_by lsize es + 2
decreasing_by all_goals (simp only [psize, lsize, dsize]; omega)
end

theorem flatten_metric_keeps (base d : Dict) (q : String)
    (hq : ('_' : Char) ∉ q.data)
    (hd : ∀ kv ∈ d, kv.1 ≠ q ∧ kv.1 ≠ "") :
    dlookup (flatten_metric base d) q = dlookup base q :=
  flattenPairs_keeps base "" d q hq (fun _ => hd)

/-- A rollup section dict whose top-level keys are ordinary metric names:
none of them is the reserved envelope key `id` or the empty string.
Every section produced by `get_metrics` satisfies this. -/
def cleanSectionKeys (d : Dict) : Prop :=
  ∀ kv ∈ d, kv.1 ≠ "id" ∧ kv.1 ≠ ""

instance (d : Dict) : Decidable (cleanSectionKeys d) := by
  unfold cleanSectionKeys
  infer_instance

theorem dlookup_metricItemBase_id (idStr rType aName ds iso : String) (dur : ℚ) :
    dlookup (metricItemBase idStr rType aName ds iso dur) "id" =
      some (.strV idStr) := rfl

theorem dlookup_sectionMetricItem_id (idStr rType aName ds iso : String)
    (dur : ℚ) (d : Dict) (hd : cleanSectionKeys d) :
    dlookup (sectionMetricItem idStr rType aName ds iso dur d) "id" =
      some (.strV idStr) := by
  rw [sectionMetricItem, flatten_metric_keeps _ _ _ (by decide) hd]
  rfl

theorem dlookup_globalMetricItemCurrent_id (metrics : MetricsDict)
    (ds iso : String) (dur : ℚ) :
    dlookup (globalMetricItemCurrent metrics ds iso dur) "id" =
      some (.strV "METRICS-GLOBAL-CURRENT") := by
  have hflat : dlookup (flatten_metric []
      [("totalResources", dget metrics.globalSection "totalResources" (.intV 0)),
       ("resourceCounts", dget metrics.globalSection "resourceCounts" (.mapV [])),
       ("regionsCollected", dget metrics.globalSection "regionsCollected" (.intV 0)),
       ("resourceRegionsFound",
         dget metrics.globalSection "resourceRegionsFound" (.intV 0))]) "id" = none := by
    rw [flatten_metric_keeps _ _ _ (by decide) ?hkeys]
    · rfl
    case hkeys =>
      intro kv hkv
      simp only [List.mem_cons, List.not_mem_nil, or_false] at hkv
      rcases hkv with rfl | rfl | rfl | rfl <;> exact ⟨by simp, by simp⟩
  simp only [globalMetricItemCurrent]
  rw [dlookup_dictUpdate_of_notMem _ _ _ hflat,
    dlookup_dinsert_ne _ _ _ _ (by decide),
    dlookup_dinsert_ne _ _ _ _ (by decide)]
  rfl

theorem mapIds_singleSection (o : Option Dict)
    (idStr rType aName ds iso : String) (dur : ℚ)
    (h : ∀ d, o = some d → cleanSectionKeys d) :
    ((match o with
      | some d =>
        if d.isEmpty then []
        else [sectionMetricItem idStr rType aName ds iso dur d]
      | none => []).map (fun it => dlookup it "id")) =
      (if sectionTruthy o then [some (.strV idStr)] else []) := by
  cases o with
  | none => rfl
  | some d =>
    by_cases hd : d.isEmpty
    · simp [sectionTruthy, hd]
    · simp only [hd, Bool.false_eq_true, if_false, List.map_cons, List.map_nil,
        sectionTruthy]
      rw [dlookup_sectionMetricItem_id idStr rType aName ds iso dur d (h d rfl)]
      simp [hd]

theorem mapIds_ec2Section (o : Option Dict) (ds iso : String) (dur : ℚ)
    (h : ∀ d, o = some d → cleanSectionKeys d) :
    ((match o with
      | some d =>
        if d.isEmpty then []
        else
          [sectionMetricItem "METRICS-EC2-CURRENT" "METRIC_EC2_HEALTH"
            "EC2 Health Metrics" ds iso dur d,
           dinsert (sectionMetricItem "METRICS-EC2-CURRENT" "METRIC_EC2_HEALTH"
             "EC2 Health Metrics" ds iso dur d) "id"
             (.strV ("METRICS-EC2-" ++ ds))]
      | none => []).map (fun it => dlookup it "id")) =
      (if sectionTruthy o then
        [some (.strV "METRICS-EC2-CURRENT"),
         some (.strV ("METRICS-EC2-" ++ ds))] else []) := by
  cases o with
  | none => rfl
  | some d =>
    by_cases hd : d.isEmpty
    · simp [sectionTruthy, hd]
    · simp only [hd, Bool.false_eq_true, if_false, List.map_cons, List.map_nil,
        sectionTruthy]
      rw [dlookup_sectionMetricItem_id "METRICS-EC2-CURRENT" "METRIC_EC2_HEALTH"
        "EC2 Health Metrics" ds iso dur d (h d rfl), dlookup_dinsert_self]
      simp [hd]

/-- C9 as amended: the metrics persistence step writes, for the global
and EC2 categories, both the fixed `-CURRENT` record and a per-date
historical record; for the RDS, storage, cost and security categories it
writes only the fixed `-CURRENT` record — no per-date historical id —
whenever the category is present in the rollup (assuming, as `get_metrics`
guarantees, that section keys do not collide with the reserved `id`
field). -/
theorem save_metrics_current_and_historical_ids (metrics : MetricsDict)
    (date_str iso : String) (dur : ℚ)
    (hec2 : ∀ d, metrics.ec2 = some d → cleanSectionKeys d)
    (hrds : ∀ d, metrics.rds = some d → cleanSectionKeys d)
    (hsto : ∀ d, metrics.storage = some d → cleanSectionKeys d)
    (hcost : ∀ d, metrics.cost = some d → cleanSectionKeys d)
    (hsec : ∀ d, metrics.security = some d → cleanSectionKeys d) :
    savedMetricIds metrics date_str iso dur =
      [some (.strV "METRICS-GLOBAL-CURRENT"),
       some (.strV ("METRICS-GLOBAL-" ++ date_str))] ++
      (if sectionTruthy metrics.ec2 then
        [some (.strV "METRICS-EC2-CURRENT"),
         some (.strV ("METRICS-EC2-" ++ date_str))] else []) ++
      (if sectionTruthy metrics.rds then
        [some (.strV "METRICS-RDS-CURRENT")] else []) ++
      (if sectionTruthy metrics.storage then
        [some (.strV "METRICS-STORAGE-CURRENT")] else []) ++
      (if sectionTruthy metrics.cost then
        [some (.strV "METRICS-COST-CURRENT")] else []) ++
      (if sectionTruthy metrics.security then
        [some (.strV "METRICS-SECURITY-CURRENT")] else []) := by
  simp only [savedMetricIds, save_metrics_items, List.map_append, List.map_cons,
    List.map_nil]
  rw [dlookup_globalMetricItemCurrent_id, dlookup_dinsert_self,
    mapIds_ec2Section metrics.ec2 date_str iso dur hec2,
    mapIds_singleSection metrics.rds "METRICS-RDS-CURRENT" "METRIC_RDS"
      "RDS Metrics" date_str iso dur hrds,
    mapIds_singleSection metrics.storage "METRICS-STORAGE-CURRENT"
      "METRIC_STORAGE" "Storage Metrics" date_str iso dur hsto,
    mapIds_singleSection metrics.cost "METRICS-COST-CURRENT" "METRIC_COST"
      "Cost Optimization" date_str iso dur hcost,
    mapIds_singleSection metrics.security "METRICS-SECURITY-CURRENT"
      "METRIC_SECURITY" "Security Metrics" date_str iso dur hsec]

/-- Rollup of the C9 witness: EC2 and RDS sections present, the rest
absent. -/
def c9WitnessMetrics : MetricsDict :=
  ⟨[("totalResources", .intV 7)], some [("total", .intV 2)],
   some [("total", .intV 5)], none, none, none⟩

theorem save_metrics_current_and_historical_ids_witness :
    savedMetricIds c9WitnessMetrics "2026-10-12" "ts" 0 =
      [some (.strV "METRICS-GLOBAL-CURRENT"),
       some (.strV ("METRICS-GLOBAL-" ++ "2026-10-12"))] ++
      [some (.strV "METRICS-EC2-CURRENT"),
       some (.strV ("METRICS-EC2-" ++ "2026-10-12"))] ++
      [some (.strV "METRICS-RDS-CURRENT")] ++ [] ++ [] ++ [] := by
  have h := save_metrics_current_and_historical_ids c9WitnessMetrics
    "2026-10-12" "ts" 0
    (by intro d hd
        simp only [c9WitnessMetrics, Option.some.injEq] at hd
        subst hd
        decide)
    (by intro d hd
        simp only [c9WitnessMetrics, Option.some.injEq] at hd
        subst hd
        decide)
    (by intro d hd; simp [c9WitnessMetrics] at hd)
    (by intro d hd; simp [c9WitnessMetrics] at hd)
    (by intro d hd; simp [c9WitnessMetrics] at hd)
  simpa [c9WitnessMetrics, sectionTruthy] using h

/-- Rollup of the C9 counterexample: the RDS category is present. -/
def c9Metrics : MetricsDict :=
  ⟨[], none, some [("total", .intV 5)], none, none, none⟩

/-- C9 counterexample: with the RDS category present in the rollup, the
persisted batch contains the RDS `-CURRENT` record but no record with the
RDS per-date historical id — the claim's "both records for every category"
fails for RDS (and likewise for storage, cost and security). -/
theorem save_metrics_rds_historical_missing_counterexample :
    savedMetricIds c9Metrics "2026-10-12" "ts" 0 =
      [some (.strV "METRICS-GLOBAL-CURRENT"),
       some (.strV "METRICS-GLOBAL-2026-10-12"),
       some (.strV "METRICS-RDS-CURRENT")] ∧
    some (DVal.strV "METRICS-RDS-2026-10-12") ∉
      savedMetricIds c9Metrics "2026-10-12" "ts" 0 := by
  have heval : savedMetricIds c9Metrics "2026-10-12" "ts" 0 =
      [some (.strV "METRICS-GLOBAL-CURRENT"),
       some (.strV "METRICS-GLOBAL-2026-10-12"),
       some (.strV "METRICS-RDS-CURRENT")] := by
    simp [savedMetricIds, save_metrics_items, c9Metrics, globalMetricItemCurrent,
      sectionMetricItem, metricItemBase, flatten_metric, flattenPairs, flattenOne,
      dictUpdate, dinsert, dlookup, dget]
  rw [heval]
  constructor
  · rfl
  · simp

/-- Rollup of the C10 analysis: all six categories present, so all eight
metric items are built. -/
def c10Metrics : MetricsDict :=
  ⟨[("totalResources", .intV 3)], some [("total", .intV 1)],
   some [("total", .intV 1)], some [("s3Buckets", .intV 0)],
   some [("unattachedEBSVolumes", .intV 0)], some [("securityGroups", .intV 2)]⟩

/-- A stored RDS metrics snapshot in the low-level wire format: it carries
the reserved `isMetric = true` marker written by
`save_metrics_to_dynamodb`. -/
def c10StoredItem : Dict :=
  [("id", .mapV [("S", .strV "METRICS-RDS-CURRENT")]),
   ("isMetric", .mapV [("BOOL", .boolV true)])]

/-- C10: every metric item built by the metrics persistence step carries
`isMetric = true` (first conjunct, at a rollup with all six categories),
and the flag check of the clearing loop does recognise the marker when it
can see it (last conjunct) — but the clearing scan projects only the
partition key, so the loop never sees `isMetric` and enqueues the stored
`METRICS-RDS-CURRENT` snapshot for deletion (third conjunct), deleting an
item that carries the marker, against the claim and against the source's
own "Skip metrics items (do not delete)" intent. -/
theorem clear_deletes_marked_metric_current_item :
    ((save_metrics_items c10Metrics "2026-10-12" "ts" 0).map
      (fun d => dlookup d "isMetric")) =
      [some (.boolV true), some (.boolV true), some (.boolV true),
       some (.boolV true), some (.boolV true), some (.boolV true),
       some (.boolV true), some (.boolV true)] ∧
    isMetricFlagTrue c10StoredItem = true ∧
    clearTableDecision "id" c10StoredItem =
      .enqueuedForDeletion [("id", .mapV [("S", .strV "METRICS-RDS-CURRENT")])] ∧
    scanItemDecision "id" c10StoredItem = .preservedByFlag := by
  refine ⟨?_, rfl, rfl, rfl⟩
  simp [save_metrics_items, c10Metrics, globalMetricItemCurrent,
    sectionMetricItem, metricItemBase, flatten_metric, flattenPairs, flattenOne,
    dictUpdate, dinsert, dlookup, dget]
